import Mathlib

/-!
Verification development for the CoastGuardAI repository.

Shallow embedding of the core logic:
  * `engine.py` : `calculate_hybrid_risk` (hybrid risk fusion formula);
  * `community_reports.py` : the community-observation store, the
    observation validator (`submit_observation`, `validate_observation`,
    `calculate_observation_reliability`) and the traditional-knowledge
    aggregator (`calculate_indigenous_score_from_observations`).

Real numbers of the Python source are modelled as rationals (`ℚ`);
Python's `round(x, n)` (banker's rounding, round half to even) is
modelled exactly by `pyRound`.  `datetime` values are modelled as
integer timestamps (seconds); the SQLite tables become lists of records
inside a `CommunityDB` state that every operation threads explicitly.
-/

namespace CoastGuardAI

/-- Round half to even on `ℚ`, the tie-breaking rule of Python `round`. -/
def roundHalfEven (x : ℚ) : ℤ :=
  if x - ⌊x⌋ < 1/2 then ⌊x⌋
  else if 1/2 < x - ⌊x⌋ then ⌊x⌋ + 1
  else if ⌊x⌋ % 2 = 0 then ⌊x⌋ else ⌊x⌋ + 1

/-- Python `round(x, n)` on exact rationals. -/
def pyRound (x : ℚ) (n : ℕ) : ℚ :=
  (roundHalfEven (x * (10 : ℚ) ^ n) : ℚ) / (10 : ℚ) ^ n

lemma floor_le_roundHalfEven (x : ℚ) : ⌊x⌋ ≤ roundHalfEven x := by
  unfold roundHalfEven
  split_ifs <;> omega

lemma roundHalfEven_le_floor_add_one (x : ℚ) : roundHalfEven x ≤ ⌊x⌋ + 1 := by
  unfold roundHalfEven
  split_ifs <;> omega

lemma roundHalfEven_le_ceil (x : ℚ) : roundHalfEven x ≤ ⌈x⌉ := by
  unfold roundHalfEven
  split_ifs with h1 h2 h3
  · exact Int.floor_le_ceil x
  · have hx : (⌊x⌋ : ℚ) < x := by linarith
    exact (Int.add_one_le_ceil_iff).mpr hx
  · exact Int.floor_le_ceil x
  · have hx : (⌊x⌋ : ℚ) < x := by
      have : (1:ℚ)/2 ≤ x - ⌊x⌋ := le_of_not_lt h1
      linarith
    exact (Int.add_one_le_ceil_iff).mpr hx

lemma roundHalfEven_mono {x y : ℚ} (h : x ≤ y) :
    roundHalfEven x ≤ roundHalfEven y := by
  by_cases hf : ⌊x⌋ = ⌊y⌋
  · have hfr : x - ⌊x⌋ ≤ y - ⌊y⌋ := by rw [hf]; linarith
    unfold roundHalfEven
    rw [hf] at hfr ⊢
    split_ifs <;> first | omega | linarith
  · have h1 : ⌊x⌋ < ⌊y⌋ := lt_of_le_of_ne (Int.floor_le_floor h) hf
    have h2 := roundHalfEven_le_floor_add_one x
    have h3 := floor_le_roundHalfEven y
    omega

lemma pyRound_mono {x y : ℚ} (n : ℕ) (h : x ≤ y) : pyRound x n ≤ pyRound y n := by
  unfold pyRound
  have hp : (0:ℚ) < (10 : ℚ) ^ n := by positivity
  have hm : x * (10 : ℚ) ^ n ≤ y * (10 : ℚ) ^ n :=
    mul_le_mul_of_nonneg_right h (le_of_lt hp)
  have hr : roundHalfEven (x * (10 : ℚ) ^ n) ≤ roundHalfEven (y * (10 : ℚ) ^ n) :=
    roundHalfEven_mono hm
  exact div_le_div_of_nonneg_right (by exact_mod_cast hr) (le_of_lt hp)

lemma pyRound_nonneg {x : ℚ} (n : ℕ) (h : 0 ≤ x) : 0 ≤ pyRound x n := by
  unfold pyRound
  have hp : (0:ℚ) < (10 : ℚ) ^ n := by positivity
  have h0 : (0:ℤ) ≤ ⌊x * (10 : ℚ) ^ n⌋ := by
    have : (0:ℚ) ≤ x * (10 : ℚ) ^ n := mul_nonneg h (le_of_lt hp)
    exact Int.floor_nonneg.mpr this
  have := floor_le_roundHalfEven (x * (10 : ℚ) ^ n)
  have hz : (0:ℤ) ≤ roundHalfEven (x * (10 : ℚ) ^ n) := le_trans h0 this
  apply div_nonneg _ (le_of_lt hp)
  exact_mod_cast hz

lemma pyRound_le_one {x : ℚ} (n : ℕ) (h : x ≤ 1) : pyRound x n ≤ 1 := by
  unfold pyRound
  have hp : (0:ℚ) < (10 : ℚ) ^ n := by positivity
  have hm : x * (10 : ℚ) ^ n ≤ (10 : ℚ) ^ n := by
    calc x * (10 : ℚ) ^ n ≤ 1 * (10 : ℚ) ^ n :=
          mul_le_mul_of_nonneg_right h (le_of_lt hp)
    _ = (10 : ℚ) ^ n := one_mul _
  have hc : ⌈x * (10 : ℚ) ^ n⌉ ≤ ((10 : ℤ) ^ n) := by
    apply Int.ceil_le.mpr
    push_cast
    exact hm
  have hr : roundHalfEven (x * (10 : ℚ) ^ n) ≤ (10 : ℤ) ^ n :=
    le_trans (roundHalfEven_le_ceil _) hc
  rw [div_le_one hp]
  exact_mod_cast hr

/-! ## Hybrid risk fusion (`engine.py`, `calculate_hybrid_risk`) -/

/-- Sea-state contribution to the indigenous score: the
`if sea_state == "Rough" ... elif "Choppy"` chain of the source. -/
def seaStateScore (sea_state : String) : ℚ :=
  if sea_state = "Rough" then 4/10
  else if sea_state = "Choppy" then 2/10
  else 0

/-- Wind-speed contribution to the indigenous score: the
`if wind_speed == "Very High" ... elif "High"` chain of the source. -/
def windSpeedScore (wind_speed : String) : ℚ :=
  if wind_speed = "Very High" then 2/10
  else if wind_speed = "High" then 1/10
  else 0

/-- `calculate_hybrid_risk` from `engine.py`, on exact rationals. -/
def calculate_hybrid_risk (mangrove_width : ℚ) (sea_state wind_speed : String)
    (tide_level rainfall_mm : ℚ) : ℚ :=
  let satellite_flood_risk : ℚ := 3/10
  let indigenous_score := seaStateScore sea_state + windSpeedScore wind_speed
  let tide_contribution := min (tide_level / 3 * (2/10)) (2/10)
  let rainfall_contribution := min (rainfall_mm / 500 * (15/100)) (15/100)
  let protection_factor := min (mangrove_width / 100) (1/2)
  let final_risk := satellite_flood_risk + indigenous_score + tide_contribution
    + rainfall_contribution - protection_factor
  pyRound (max 0 (min 1 final_risk)) 2

/-- Severity rank of the sea states, in the order Calm ≤ Choppy ≤ Rough. -/
def seaStateRank (sea_state : String) : ℕ :=
  if sea_state = "Rough" then 2 else if sea_state = "Choppy" then 1 else 0

/-- Severity rank of the wind speeds, in the order Normal ≤ High ≤ Very High. -/
def windSpeedRank (wind_speed : String) : ℕ :=
  if wind_speed = "Very High" then 2 else if wind_speed = "High" then 1 else 0

lemma calculate_hybrid_risk_eq (mw : ℚ) (s w : String) (t r : ℚ) :
    calculate_hybrid_risk mw s w t r =
      pyRound (max 0 (min 1 (3/10 + (seaStateScore s + windSpeedScore w)
        + min (t / 3 * (2/10)) (2/10) + min (r / 500 * (15/100)) (15/100)
        - min (mw / 100) (1/2)))) 2 := rfl

lemma seaStateScore_mono {s s2 : String} (h : seaStateRank s ≤ seaStateRank s2) :
    seaStateScore s ≤ seaStateScore s2 := by
  unfold seaStateRank at h
  unfold seaStateScore
  split_ifs at h ⊢ <;> (try norm_num) <;> omega

lemma windSpeedScore_mono {w w2 : String} (h : windSpeedRank w ≤ windSpeedRank w2) :
    windSpeedScore w ≤ windSpeedScore w2 := by
  unfold windSpeedRank at h
  unfold windSpeedScore
  split_ifs at h ⊢ <;> (try norm_num) <;> omega

lemma clamp01_mono {x y : ℚ} (h : x ≤ y) :
    max 0 (min 1 x) ≤ max 0 (min 1 y) :=
  max_le_max le_rfl (min_le_min le_rfl h)

/-! ## Community observation store (`community_reports.py`)

The three SQLite tables become three lists of records.  `AUTOINCREMENT`
primary keys are modelled by explicit `next_..._id` counters starting at 1.
`datetime.now()` is passed in explicitly as an integer timestamp `now`. -/

/-- A row of the `observers` table. -/
structure Observer where
  observer_id : String
  name : String
  role : String
  location_lat : ℚ
  location_lon : ℚ
  total_observations : ℤ
  accuracy_score : ℚ
  registration_date : ℤ
  is_verified : Bool
deriving DecidableEq

/-- A row of the `observations` table. -/
structure Observation where
  id : ℕ
  observer_id : String
  observer_name : String
  location_lat : ℚ
  location_lon : ℚ
  observation_type : String
  description : String
  confidence_level : ℚ
  timestamp : ℤ
  severity : String
  validated : Bool
  validator_id : Option String
  validation_timestamp : Option ℤ
  reliability_score : ℚ
deriving DecidableEq

/-- A row of the `validation_history` table. -/
structure ValidationRecord where
  validation_id : ℕ
  observation_id : ℕ
  validator_id : String
  validation_date : ℤ
  validation_result : String
  reliability_adjustment : ℚ
  notes : String
deriving DecidableEq

/-- The whole SQLite database `Data/community_observations.db`. -/
structure CommunityDB where
  observers : List Observer
  observations : List Observation
  next_observation_id : ℕ
  validation_history : List ValidationRecord
  next_validation_id : ℕ
deriving DecidableEq

/-- The freshly initialised database (`initialize_community_db`). -/
def emptyDB : CommunityDB :=
  { observers := [], observations := [], next_observation_id := 1,
    validation_history := [], next_validation_id := 1 }

/-- `SEVERITY_LEVELS.get(severity, 0.5)`: the fixed severity-weight map
with its 0.5 default for unknown keys. -/
def severityWeight (severity : String) : ℚ :=
  if severity = "LOW" then 2/10
  else if severity = "MODERATE" then 5/10
  else if severity = "HIGH" then 75/100
  else if severity = "CRITICAL" then 95/100
  else 5/10

/-- `CommunityObservationValidator.register_observer`: an
`INSERT OR IGNORE`, so an already-registered id is left untouched. -/
def register_observer (db : CommunityDB) (observer_id name role : String)
    (lat lon : ℚ) (now : ℤ) : Bool × CommunityDB :=
  if (db.observers.find? (fun c => c.observer_id == observer_id)).isSome then
    (true, db)
  else
    (true, { db with observers := db.observers ++
      [{ observer_id := observer_id, name := name, role := role,
         location_lat := lat, location_lon := lon, total_observations := 0,
         accuracy_score := 1/2, registration_date := now, is_verified := false }] })

/-- `CommunityObservationValidator.submit_observation`.  Resolves the
observer name (falling back to `"Anonymous"`), inserts the observation
row with the schema defaults, and increments the observer's
`total_observations` counter. -/
def submit_observation (db : CommunityDB) (observer_id obs_type description : String)
    (lat lon : ℚ) (severity : String) (confidence : ℚ) (now : ℤ) :
    ℕ × CommunityDB :=
  let observer_name :=
    match db.observers.find? (fun c => c.observer_id == observer_id) with
    | some c => c.name
    | none => "Anonymous"
  let oid := db.next_observation_id
  let obs : Observation :=
    { id := oid, observer_id := observer_id, observer_name := observer_name,
      location_lat := lat, location_lon := lon, observation_type := obs_type,
      description := description, confidence_level := confidence,
      timestamp := now, severity := severity, validated := false,
      validator_id := none, validation_timestamp := none, reliability_score := 0 }
  (oid, { db with
    observations := db.observations ++ [obs],
    next_observation_id := oid + 1,
    observers := db.observers.map (fun c =>
      if c.observer_id == observer_id then
        { c with total_observations := c.total_observations + 1 }
      else c) })

/-- `CommunityObservationValidator.validate_observation`.  The SQL
`UPDATE ... WHERE id = ?` touches every row with that id (none when the
id is absent, without error), and a `ValidationRecord` is always
appended; the function then reports success. -/
def validate_observation (db : CommunityDB) (observation_id : ℕ)
    (validator_id : String) (is_valid : Bool) (reliability_adjustment : ℚ)
    (notes : String) (now : ℤ) : Bool × CommunityDB :=
  let observations := db.observations.map (fun o =>
    if o.id == observation_id then
      { o with
        validated := is_valid
        validator_id := some validator_id
        validation_timestamp := some now }
    else o)
  let rcd : ValidationRecord :=
    { validation_id := db.next_validation_id, observation_id := observation_id,
      validator_id := validator_id, validation_date := now,
      validation_result := if is_valid then "VALID" else "INVALID",
      reliability_adjustment := reliability_adjustment, notes := notes }
  (true, { db with
    observations := observations
    validation_history := db.validation_history ++ [rcd]
    next_validation_id := db.next_validation_id + 1 })

/-- The corroboration `SELECT COUNT(*)` of
`calculate_observation_reliability`: validated observations of the same
type within ±0.09 degrees of the given observation, excluding the
observation id itself. -/
def corroborationCount (db : CommunityDB) (o : Observation) (oid : ℕ) : ℕ :=
  db.observations.countP (fun p =>
    decide (o.location_lat - 9/100 ≤ p.location_lat) &&
    decide (p.location_lat ≤ o.location_lat + 9/100) &&
    decide (o.location_lon - 9/100 ≤ p.location_lon) &&
    decide (p.location_lon ≤ o.location_lon + 9/100) &&
    (p.observation_type == o.observation_type) &&
    (p.id != oid) && p.validated)

/-- The base-score arithmetic of `calculate_observation_reliability`:
observer accuracy times observation confidence, blended 70/30 with the
severity weight, plus the validation boost (+0.15, capped at 1.0) and
the corroboration boost (0.05 per corroborating observation, applied
only when the count is positive, capped at 1.0). -/
def reliabilityScoreFormula (accuracy confidence : ℚ) (severity : String)
    (validated : Bool) (count : ℕ) : ℚ :=
  let base1 := accuracy * confidence
  let base2 := base1 * (7/10) + severityWeight severity * (3/10)
  let base3 := if validated then min (base2 + 15/100) 1 else base2
  if 0 < count then min (base3 + (count : ℚ) * (5/100)) 1 else base3

/-- The read-and-compute part of `calculate_observation_reliability`:
the inner `JOIN` of the observation with its observer (either lookup
failing yields the `return 0.0` path, modelled as `none`), then the
score formula.  The result is the unrounded `base_score` the source
holds just before the `UPDATE`. -/
def reliabilityRaw (db : CommunityDB) (observation_id : ℕ) : Option ℚ :=
  match db.observations.find? (fun o => o.id == observation_id) with
  | none => none
  | some o =>
    match db.observers.find? (fun c => c.observer_id == o.observer_id) with
    | none => none
    | some c =>
      some (reliabilityScoreFormula c.accuracy_score o.confidence_level
        o.severity o.validated (corroborationCount db o observation_id))

/-- The SQL `UPDATE observations SET reliability_score = ? WHERE id = ?`. -/
def setReliability (oid : ℕ) (b : ℚ) (p : Observation) : Observation :=
  if p.id == oid then { p with reliability_score := b } else p

/-- `updateReliability db oid b` is the store after the reliability
`UPDATE` statement has run. -/
def updateReliability (db : CommunityDB) (oid : ℕ) (b : ℚ) : CommunityDB :=
  { db with observations := db.observations.map (setReliability oid b) }

/-- `CommunityObservationValidator.calculate_observation_reliability`:
returns 0.0 (leaving the store untouched) when either lookup fails,
otherwise persists the unrounded score and returns it rounded to three
decimals. -/
def calculate_observation_reliability (db : CommunityDB) (observation_id : ℕ) :
    ℚ × CommunityDB :=
  match reliabilityRaw db observation_id with
  | none => (0, db)
  | some b => (pyRound b 3, updateReliability db observation_id b)

/-! ## Traditional knowledge aggregation
(`TraditionalKnowledgeModifier.calculate_indigenous_score_from_observations`) -/

/-- The six per-category accumulators of the `scores` dict. -/
structure CategoryScores where
  anomalous_waves : ℚ
  wind_pattern_shift : ℚ
  tidal_anomaly : ℚ
  wildlife_behavior : ℚ
  coastal_erosion : ℚ
  mangrove_stress : ℚ
deriving DecidableEq

/-- One iteration of the aggregation loop:
`scores[obs_type] += severity_weight * reliability`.  An observation
type outside the six keys of the `scores` dict raises `KeyError` in the
source, modelled as `none`. -/
def addContribution (s : CategoryScores) (o : Observation) : Option CategoryScores :=
  let contribution := severityWeight o.severity * o.reliability_score
  if o.observation_type == "anomalous_waves" then
    some { s with anomalous_waves := s.anomalous_waves + contribution }
  else if o.observation_type == "wind_pattern_shift" then
    some { s with wind_pattern_shift := s.wind_pattern_shift + contribution }
  else if o.observation_type == "tidal_anomaly" then
    some { s with tidal_anomaly := s.tidal_anomaly + contribution }
  else if o.observation_type == "wildlife_behavior" then
    some { s with wildlife_behavior := s.wildlife_behavior + contribution }
  else if o.observation_type == "coastal_erosion" then
    some { s with coastal_erosion := s.coastal_erosion + contribution }
  else if o.observation_type == "mangrove_stress" then
    some { s with mangrove_stress := s.mangrove_stress + contribution }
  else none

/-- The whole aggregation loop over the queried rows. -/
def accumulateScores (rows : List Observation) : Option CategoryScores :=
  rows.foldl (fun acc o => acc.bind (fun s => addContribution s o))
    (some { anomalous_waves := 0, wind_pattern_shift := 0, tidal_anomaly := 0,
            wildlife_behavior := 0, coastal_erosion := 0, mangrove_stress := 0 })

/-- The aggregator's `SELECT`: validated observations within ±0.45
degrees of the target and newer than `now - hours_back` hours.  The
source also orders rows by reliability; the ordering is dropped here
because none of the returned scores depend on it. -/
def matchedObservations (db : CommunityDB) (lat lon : ℚ) (hours_back : ℤ)
    (now : ℤ) : List Observation :=
  db.observations.filter (fun o =>
    decide (lat - 45/100 ≤ o.location_lat) &&
    decide (o.location_lat ≤ lat + 45/100) &&
    decide (lon - 45/100 ≤ o.location_lon) &&
    decide (o.location_lon ≤ lon + 45/100) &&
    o.validated &&
    decide (now - hours_back * 3600 < o.timestamp))

/-- `wave_score = min(scores['anomalous_waves'] / 3, 0.4)`. -/
def waveScore (s : CategoryScores) : ℚ := min (s.anomalous_waves / 3) (4/10)

/-- `wind_score = min(scores['wind_pattern_shift'] / 3, 0.3)`. -/
def windScore (s : CategoryScores) : ℚ := min (s.wind_pattern_shift / 3) (3/10)

/-- `tidal_score = min(scores['tidal_anomaly'] / 3, 0.25)`. -/
def tidalScore (s : CategoryScores) : ℚ := min (s.tidal_anomaly / 3) (25/100)

/-- `ecosystem_score = min((wildlife + erosion + mangrove) / 9, 0.2)`. -/
def ecosystemScore (s : CategoryScores) : ℚ :=
  min ((s.wildlife_behavior + s.coastal_erosion + s.mangrove_stress) / 9) (2/10)

/-- The dictionary returned by the aggregator (the raw
`observations_summary` record list is not modelled). -/
structure IndigenousScoreResult where
  wave_anomaly_score : ℚ
  wind_anomaly_score : ℚ
  tidal_anomaly_score : ℚ
  ecosystem_stress_score : ℚ
  total_indigenous_score : ℚ
  confidence : ℚ
  num_observations : ℕ
deriving DecidableEq

/-- The zero-valued result (both the defined empty-input dictionary and
the exception handler's fallback carry all-zero scores). -/
def zeroIndigenousResult : IndigenousScoreResult :=
  { wave_anomaly_score := 0, wind_anomaly_score := 0, tidal_anomaly_score := 0,
    ecosystem_stress_score := 0, total_indigenous_score := 0, confidence := 0,
    num_observations := 0 }

/-- `TraditionalKnowledgeModifier.calculate_indigenous_score_from_observations`. -/
def calculate_indigenous_score_from_observations (db : CommunityDB)
    (lat lon : ℚ) (hours_back : ℤ) (now : ℤ) : IndigenousScoreResult :=
  let df := matchedObservations db lat lon hours_back now
  if df.isEmpty then zeroIndigenousResult
  else
    match accumulateScores df with
    | none => zeroIndigenousResult
    | some s =>
      let total_score := min (waveScore s + windScore s + tidalScore s
        + ecosystemScore s) 1
      let conf := min ((df.length : ℚ) / 5) 1
      { wave_anomaly_score := pyRound (waveScore s) 3,
        wind_anomaly_score := pyRound (windScore s) 3,
        tidal_anomaly_score := pyRound (tidalScore s) 3,
        ecosystem_stress_score := pyRound (ecosystemScore s) 3,
        total_indigenous_score := pyRound total_score 3,
        confidence := pyRound conf 3,
        num_observations := df.length }

/-! ## Shared helper lemmas -/

lemma roundHalfEven_intCast (z : ℤ) : roundHalfEven (z : ℚ) = z := by
  unfold roundHalfEven
  simp [Int.floor_intCast]

lemma pyRound_zero (n : ℕ) : pyRound 0 n = 0 := by
  unfold pyRound
  rw [zero_mul]
  rw [show (0:ℚ) = ((0:ℤ):ℚ) by norm_num, roundHalfEven_intCast]
  norm_num

lemma pyRound_one (n : ℕ) : pyRound 1 n = 1 := by
  unfold pyRound
  rw [one_mul]
  have h : roundHalfEven ((((10:ℤ)^n) : ℤ) : ℚ) = (10:ℤ)^n := roundHalfEven_intCast _
  rw [show ((((10:ℤ)^n) : ℤ) : ℚ) = (10:ℚ)^n by push_cast; ring] at h
  rw [h]
  push_cast
  rw [div_self (by positivity)]

lemma severityWeight_nonneg (s : String) : 0 ≤ severityWeight s := by
  unfold severityWeight
  split_ifs <;> norm_num

lemma severityWeight_le_one (s : String) : severityWeight s ≤ 1 := by
  unfold severityWeight
  split_ifs <;> norm_num

/-! ## Claim theorems -/

/-- Claim C6: `calculate_hybrid_risk(85, "Calm", "Normal", 0, 0)` is
`0.0` (baseline 0.3 minus capped mangrove protection 0.5, clamped at 0)
and `calculate_hybrid_risk(0, "Rough", "Very High", 3.0, 500)` is `1.0`
(0.3 + 0.4 + 0.2 + 0.2 + 0.15 = 1.25, clamped to 1.0). -/
theorem hybrid_risk_concrete_values :
    calculate_hybrid_risk 85 "Calm" "Normal" 0 0 = 0 ∧
    calculate_hybrid_risk 0 "Rough" "Very High" 3 500 = 1 := by
  constructor
  · rw [calculate_hybrid_risk_eq]
    simp [seaStateScore, windSpeedScore, min_def, max_def]
    norm_num
    exact pyRound_zero 2
  · rw [calculate_hybrid_risk_eq]
    simp [seaStateScore, windSpeedScore, min_def, max_def]
    norm_num
    exact pyRound_one 2

/-- Claim C1: for every mangrove_width ≥ 0, sea_state in
{Calm, Choppy, Rough}, wind_speed in {Normal, High, Very High},
tide_level ≥ 0 and rainfall_mm ≥ 0, `calculate_hybrid_risk` returns a
value in [0.0, 1.0], and the result is monotonically non-decreasing in
sea-state severity, wind-speed severity, tide level and rainfall, and
non-increasing in mangrove width, all other arguments held fixed. -/
theorem hybrid_risk_bounds_monotone
    (mw mw2 tide tide2 rain rain2 : ℚ) (s s2 w w2 : String)
    (hmw : 0 ≤ mw) (hmw2 : 0 ≤ mw2) (htide : 0 ≤ tide) (htide2 : 0 ≤ tide2)
    (hrain : 0 ≤ rain) (hrain2 : 0 ≤ rain2)
    (hs : s = "Calm" ∨ s = "Choppy" ∨ s = "Rough")
    (hs2 : s2 = "Calm" ∨ s2 = "Choppy" ∨ s2 = "Rough")
    (hw : w = "Normal" ∨ w = "High" ∨ w = "Very High")
    (hw2 : w2 = "Normal" ∨ w2 = "High" ∨ w2 = "Very High") :
    (0 ≤ calculate_hybrid_risk mw s w tide rain
      ∧ calculate_hybrid_risk mw s w tide rain ≤ 1)
    ∧ (seaStateRank s ≤ seaStateRank s2 →
        calculate_hybrid_risk mw s w tide rain
          ≤ calculate_hybrid_risk mw s2 w tide rain)
    ∧ (windSpeedRank w ≤ windSpeedRank w2 →
        calculate_hybrid_risk mw s w tide rain
          ≤ calculate_hybrid_risk mw s w2 tide rain)
    ∧ (tide ≤ tide2 →
        calculate_hybrid_risk mw s w tide rain
          ≤ calculate_hybrid_risk mw s w tide2 rain)
    ∧ (rain ≤ rain2 →
        calculate_hybrid_risk mw s w tide rain
          ≤ calculate_hybrid_risk mw s w tide rain2)
    ∧ (mw ≤ mw2 →
        calculate_hybrid_risk mw2 s w tide rain
          ≤ calculate_hybrid_risk mw s w tide rain) := by
  refine ⟨⟨?_, ?_⟩, ?_, ?_, ?_, ?_, ?_⟩
  · rw [calculate_hybrid_risk_eq]
    exact pyRound_nonneg 2 (le_max_left 0 _)
  · rw [calculate_hybrid_risk_eq]
    exact pyRound_le_one 2 (max_le (by norm_num) (min_le_left 1 _))
  · intro h
    rw [calculate_hybrid_risk_eq, calculate_hybrid_risk_eq]
    apply pyRound_mono
    apply clamp01_mono
    have hm := seaStateScore_mono h
    linarith
  · intro h
    rw [calculate_hybrid_risk_eq, calculate_hybrid_risk_eq]
    apply pyRound_mono
    apply clamp01_mono
    have hm := windSpeedScore_mono h
    linarith
  · intro h
    rw [calculate_hybrid_risk_eq, calculate_hybrid_risk_eq]
    apply pyRound_mono
    apply clamp01_mono
    have hm : min (tide / 3 * (2/10)) (2/10) ≤ min (tide2 / 3 * (2/10)) (2/10) :=
      min_le_min (by linarith) le_rfl
    linarith
  · intro h
    rw [calculate_hybrid_risk_eq, calculate_hybrid_risk_eq]
    apply pyRound_mono
    apply clamp01_mono
    have hm : min (rain / 500 * (15/100)) (15/100)
        ≤ min (rain2 / 500 * (15/100)) (15/100) :=
      min_le_min (by linarith) le_rfl
    linarith
  · intro h
    rw [calculate_hybrid_risk_eq, calculate_hybrid_risk_eq]
    apply pyRound_mono
    apply clamp01_mono
    have hm : min (mw / 100) (1/2) ≤ min (mw2 / 100) (1/2) :=
      min_le_min (by linarith) le_rfl
    linarith

/-- Witness for C1 at concrete inputs. -/
theorem hybrid_risk_bounds_monotone_witness :
    (0 ≤ calculate_hybrid_risk 0 "Calm" "Normal" 0 0
      ∧ calculate_hybrid_risk 0 "Calm" "Normal" 0 0 ≤ 1)
    ∧ (seaStateRank "Calm" ≤ seaStateRank "Rough" →
        calculate_hybrid_risk 0 "Calm" "Normal" 0 0
          ≤ calculate_hybrid_risk 0 "Rough" "Normal" 0 0)
    ∧ (windSpeedRank "Normal" ≤ windSpeedRank "High" →
        calculate_hybrid_risk 0 "Calm" "Normal" 0 0
          ≤ calculate_hybrid_risk 0 "Calm" "High" 0 0)
    ∧ ((0:ℚ) ≤ 2 →
        calculate_hybrid_risk 0 "Calm" "Normal" 0 0
          ≤ calculate_hybrid_risk 0 "Calm" "Normal" 2 0)
    ∧ ((0:ℚ) ≤ 250 →
        calculate_hybrid_risk 0 "Calm" "Normal" 0 0
          ≤ calculate_hybrid_risk 0 "Calm" "Normal" 0 250)
    ∧ ((0:ℚ) ≤ 40 →
        calculate_hybrid_risk 40 "Calm" "Normal" 0 0
          ≤ calculate_hybrid_risk 0 "Calm" "Normal" 0 0) :=
  hybrid_risk_bounds_monotone 0 40 0 2 0 250 "Calm" "Rough" "Normal" "High"
    (by norm_num) (by norm_num) (by norm_num) (by norm_num) (by norm_num)
    (by norm_num) (Or.inl rfl) (Or.inr (Or.inr rfl)) (Or.inl rfl)
    (Or.inr (Or.inl rfl))

lemma map_if_id {l : List Observation} {oid : ℕ} (f : Observation → Observation)
    (h : ∀ o ∈ l, (o.id == oid) = false) :
    l.map (fun o => if o.id == oid then f o else o) = l := by
  calc l.map (fun o => if o.id == oid then f o else o) = l.map id :=
        List.map_eq_map_iff.mpr (fun o ho => by simp [h o ho])
  _ = l := List.map_id l

/-- Claim C2 (amended): recording a validation decision for an
observation id absent from the store does not fail: the call reports
success, leaves the observations unchanged (the update matches no row)
and still appends a ValidationRecord referencing the missing id.  No
NotFoundError exists anywhere in the code. -/
theorem validate_missing_observation_succeeds (db : CommunityDB) (oid : ℕ)
    (vid : String) (valid : Bool) (adj : ℚ) (nts : String) (now : ℤ)
    (h : db.observations.find? (fun o => o.id == oid) = none) :
    (validate_observation db oid vid valid adj nts now).1 = true
    ∧ (validate_observation db oid vid valid adj nts now).2.observations
      = db.observations
    ∧ (validate_observation db oid vid valid adj nts now).2.validation_history
      = db.validation_history ++
        [{ validation_id := db.next_validation_id, observation_id := oid,
           validator_id := vid, validation_date := now,
           validation_result := if valid then "VALID" else "INVALID",
           reliability_adjustment := adj, notes := nts }] := by
  have hall : ∀ o ∈ db.observations, (o.id == oid) = false := by
    intro o ho
    have hx := List.find?_eq_none.mp h o ho
    simpa using hx
  refine ⟨rfl, ?_, rfl⟩
  exact map_if_id _ hall

/-- Witness for the amended C2 on the freshly initialised store. -/
theorem validate_missing_observation_witness :
    (validate_observation emptyDB 1 "validator_1" true 0 "" 0).1 = true
    ∧ (validate_observation emptyDB 1 "validator_1" true 0 "" 0).2.observations
      = emptyDB.observations
    ∧ (validate_observation emptyDB 1 "validator_1" true 0 "" 0).2.validation_history
      = emptyDB.validation_history ++
        [{ validation_id := emptyDB.next_validation_id, observation_id := 1,
           validator_id := "validator_1", validation_date := 0,
           validation_result := if true then "VALID" else "INVALID",
           reliability_adjustment := 0, notes := "" }] :=
  validate_missing_observation_succeeds emptyDB 1 "validator_1" true 0 "" 0 rfl

/-- Counterexample to C2 as stated: on the empty store, validating the
unknown observation id 1 reports success and appends a ValidationRecord
referencing it, instead of failing with NotFoundError. -/
theorem validate_missing_observation_counterexample :
    emptyDB.observations.find? (fun o => o.id == 1) = none
    ∧ (validate_observation emptyDB 1 "validator_1" true 0 "" 0).1 = true
    ∧ (validate_observation emptyDB 1 "validator_1" true 0 "" 0).2.validation_history.map
        (fun r => r.observation_id) = [1] :=
  ⟨rfl, rfl, rfl⟩

/-- Claim C7: for every observer id not present in the observer store,
submit_observation still succeeds, returning the next fresh observation
id, and the stored observation's denormalized observer_name field is
the string "Anonymous". -/
theorem submit_unknown_observer_anonymous
    (db : CommunityDB) (observer_id obs_type description : String)
    (lat lon : ℚ) (severity : String) (confidence : ℚ) (now : ℤ)
    (h : db.observers.find? (fun c => c.observer_id == observer_id) = none) :
    (submit_observation db observer_id obs_type description lat lon severity
      confidence now).1 = db.next_observation_id
    ∧ (submit_observation db observer_id obs_type description lat lon severity
      confidence now).2.observations
      = db.observations ++
        [{ id := db.next_observation_id, observer_id := observer_id,
           observer_name := "Anonymous", location_lat := lat, location_lon := lon,
           observation_type := obs_type, description := description,
           confidence_level := confidence, timestamp := now, severity := severity,
           validated := false, validator_id := none, validation_timestamp := none,
           reliability_score := 0 }] := by
  unfold submit_observation
  rw [h]
  exact ⟨rfl, rfl⟩

/-- Witness for C7: an unregistered observer id on the fresh store. -/
theorem submit_unknown_observer_anonymous_witness :
    (submit_observation emptyDB "ghost" "anomalous_waves" "huge waves"
      9 76 "MODERATE" (7/10) 100).1 = emptyDB.next_observation_id
    ∧ (submit_observation emptyDB "ghost" "anomalous_waves" "huge waves"
      9 76 "MODERATE" (7/10) 100).2.observations
      = emptyDB.observations ++
        [{ id := emptyDB.next_observation_id, observer_id := "ghost",
           observer_name := "Anonymous", location_lat := 9, location_lon := 76,
           observation_type := "anomalous_waves", description := "huge waves",
           confidence_level := 7/10, timestamp := 100, severity := "MODERATE",
           validated := false, validator_id := none, validation_timestamp := none,
           reliability_score := 0 }] :=
  submit_unknown_observer_anonymous emptyDB "ghost" "anomalous_waves" "huge waves"
    9 76 "MODERATE" (7/10) 100 rfl

/-- Claim C8: for every observation id not present in the store,
calculate_observation_reliability returns 0.0 without failing and
leaves the store unchanged. -/
theorem reliability_missing_observation_zero (db : CommunityDB) (oid : ℕ)
    (h : db.observations.find? (fun o => o.id == oid) = none) :
    calculate_observation_reliability db oid = (0, db) := by
  unfold calculate_observation_reliability reliabilityRaw
  rw [h]

/-- Witness for C8 on the freshly initialised store. -/
theorem reliability_missing_observation_witness :
    calculate_observation_reliability emptyDB 1 = (0, emptyDB) :=
  reliability_missing_observation_zero emptyDB 1 rfl

def ghostObservation : Observation :=
  { id := 1, observer_id := "ghost", observer_name := "Anonymous",
    location_lat := 9, location_lon := 76,
    observation_type := "anomalous_waves", description := "huge waves",
    confidence_level := 7/10, timestamp := 100, severity := "MODERATE",
    validated := false, validator_id := none, validation_timestamp := none,
    reliability_score := 0 }

def ghostDB : CommunityDB :=
  { observers := [], observations := [ghostObservation],
    next_observation_id := 2, validation_history := [], next_validation_id := 1 }

/-- Claim C10: an observation whose observer id has no registered
observer takes the same safe-default path as a missing observation id:
the inner join yields no row, so the call returns 0.0 and leaves the
store unchanged, and the observation can never receive a nonzero
reliability score. -/
theorem reliability_unknown_observer_zero (db : CommunityDB) (oid : ℕ)
    (o : Observation)
    (h1 : db.observations.find? (fun p => p.id == oid) = some o)
    (h2 : db.observers.find? (fun c => c.observer_id == o.observer_id) = none) :
    calculate_observation_reliability db oid = (0, db) := by
  simp [calculate_observation_reliability, reliabilityRaw, h1, h2]

/-- Witness for C10: an anonymous observation from the unregistered
observer id "ghost". -/
theorem reliability_unknown_observer_witness :
    calculate_observation_reliability ghostDB 1 = (0, ghostDB) :=
  reliability_unknown_observer_zero ghostDB 1 ghostObservation rfl rfl

lemma reliabilityScoreFormula_bounds (accuracy confidence : ℚ) (severity : String)
    (validated : Bool) (count : ℕ)
    (hacc0 : 0 ≤ accuracy) (hacc1 : accuracy ≤ 1)
    (hconf0 : 0 ≤ confidence) (hconf1 : confidence ≤ 1) :
    0 ≤ reliabilityScoreFormula accuracy confidence severity validated count
    ∧ reliabilityScoreFormula accuracy confidence severity validated count ≤ 1 := by
  have hs0 := severityWeight_nonneg severity
  have hs1 := severityWeight_le_one severity
  have hm0 : 0 ≤ accuracy * confidence := mul_nonneg hacc0 hconf0
  have hm1 : accuracy * confidence ≤ 1 := by nlinarith
  have hcnt : (0:ℚ) ≤ (count : ℚ) := Nat.cast_nonneg count
  unfold reliabilityScoreFormula
  constructor
  · split_ifs with h1 h2 h3
    · exact le_min (by positivity) (by norm_num)
    · exact le_min (by nlinarith) (by norm_num)
    · exact le_min (by nlinarith) (by norm_num)
    · nlinarith
  · split_ifs with h1 h2 h3
    · exact min_le_right _ _
    · exact min_le_right _ _
    · exact min_le_right _ _
    · nlinarith

/-- Claim C3: for every stored observation whose observer exists with
accuracy_score in [0,1] and whose confidence is in [0,1],
calculate_observation_reliability returns a value in [0,1]; the +0.15
validation boost and the 0.05-per-corroboration boost never push the
result above 1.0, for any corroboration count. -/
theorem reliability_in_unit_interval (db : CommunityDB) (oid : ℕ)
    (o : Observation) (c : Observer)
    (h1 : db.observations.find? (fun p => p.id == oid) = some o)
    (h2 : db.observers.find? (fun k => k.observer_id == o.observer_id) = some c)
    (hacc0 : 0 ≤ c.accuracy_score) (hacc1 : c.accuracy_score ≤ 1)
    (hconf0 : 0 ≤ o.confidence_level) (hconf1 : o.confidence_level ≤ 1) :
    0 ≤ (calculate_observation_reliability db oid).1
    ∧ (calculate_observation_reliability db oid).1 ≤ 1 := by
  have hr : reliabilityRaw db oid
      = some (reliabilityScoreFormula c.accuracy_score o.confidence_level
        o.severity o.validated (corroborationCount db o oid)) := by
    simp [reliabilityRaw, h1, h2]
  have hb := reliabilityScoreFormula_bounds c.accuracy_score o.confidence_level
    o.severity o.validated (corroborationCount db o oid) hacc0 hacc1 hconf0 hconf1
  have hcalc : (calculate_observation_reliability db oid).1
      = pyRound (reliabilityScoreFormula c.accuracy_score o.confidence_level
        o.severity o.validated (corroborationCount db o oid)) 3 := by
    simp [calculate_observation_reliability, hr]
  rw [hcalc]
  exact ⟨pyRound_nonneg 3 hb.1, pyRound_le_one 3 hb.2⟩

def sampleObserver : Observer :=
  { observer_id := "F1", name := "Asha", role := "fisherman",
    location_lat := 9, location_lon := 76, total_observations := 1,
    accuracy_score := 1/2, registration_date := 0, is_verified := false }

def sampleObservation : Observation :=
  { id := 1, observer_id := "F1", observer_name := "Asha",
    location_lat := 9, location_lon := 76,
    observation_type := "anomalous_waves", description := "big waves",
    confidence_level := 777/1000, timestamp := 100, severity := "MODERATE",
    validated := false, validator_id := none, validation_timestamp := none,
    reliability_score := 0 }

def sampleDB : CommunityDB :=
  { observers := [sampleObserver], observations := [sampleObservation],
    next_observation_id := 2, validation_history := [], next_validation_id := 1 }

/-- Witness for C3 on a one-observation store. -/
theorem reliability_in_unit_interval_witness :
    0 ≤ (calculate_observation_reliability sampleDB 1).1
    ∧ (calculate_observation_reliability sampleDB 1).1 ≤ 1 :=
  reliability_in_unit_interval sampleDB 1 sampleObservation sampleObserver
    rfl rfl (by norm_num [sampleObserver]) (by norm_num [sampleObserver])
    (by norm_num [sampleObservation]) (by norm_num [sampleObservation])

lemma setReliability_id (oid : ℕ) (b : ℚ) (p : Observation) :
    (setReliability oid b p).id = p.id := by
  unfold setReliability
  split <;> rfl

lemma setReliability_observer_id (oid : ℕ) (b : ℚ) (p : Observation) :
    (setReliability oid b p).observer_id = p.observer_id := by
  unfold setReliability
  split <;> rfl

lemma setReliability_location_lat (oid : ℕ) (b : ℚ) (p : Observation) :
    (setReliability oid b p).location_lat = p.location_lat := by
  unfold setReliability
  split <;> rfl

lemma setReliability_location_lon (oid : ℕ) (b : ℚ) (p : Observation) :
    (setReliability oid b p).location_lon = p.location_lon := by
  unfold setReliability
  split <;> rfl

lemma setReliability_observation_type (oid : ℕ) (b : ℚ) (p : Observation) :
    (setReliability oid b p).observation_type = p.observation_type := by
  unfold setReliability
  split <;> rfl

lemma setReliability_confidence_level (oid : ℕ) (b : ℚ) (p : Observation) :
    (setReliability oid b p).confidence_level = p.confidence_level := by
  unfold setReliability
  split <;> rfl

lemma setReliability_severity (oid : ℕ) (b : ℚ) (p : Observation) :
    (setReliability oid b p).severity = p.severity := by
  unfold setReliability
  split <;> rfl

lemma setReliability_validated (oid : ℕ) (b : ℚ) (p : Observation) :
    (setReliability oid b p).validated = p.validated := by
  unfold setReliability
  split <;> rfl

lemma find?_map_setReliability (oid : ℕ) (b : ℚ) (l : List Observation) :
    (l.map (setReliability oid b)).find? (fun p => p.id == oid)
      = (l.find? (fun p => p.id == oid)).map (setReliability oid b) := by
  induction l with
  | nil => rfl
  | cons a t ih =>
    by_cases hc : (a.id == oid) = true
    · have hc2 : ((setReliability oid b a).id == oid) = true := by
        rw [setReliability_id]
        exact hc
      rw [List.map_cons, List.find?_cons_of_pos (p := fun q : Observation => q.id == oid) _ hc2,
        List.find?_cons_of_pos (p := fun q : Observation => q.id == oid) _ hc]
      rfl
    · have hc2 : ¬ ((setReliability oid b a).id == oid) = true := by
        rw [setReliability_id]
        exact hc
      rw [List.map_cons, List.find?_cons_of_neg (p := fun q : Observation => q.id == oid) _ hc2,
        List.find?_cons_of_neg (p := fun q : Observation => q.id == oid) _ hc, ih]

lemma countP_congr_mem {α : Type} {p q : α → Bool} {l : List α}
    (h : ∀ x ∈ l, p x = q x) : l.countP p = l.countP q := by
  induction l with
  | nil => rfl
  | cons a t ih =>
    rw [List.countP_cons, List.countP_cons, h a (by simp),
      ih (fun x hx => h x (by simp [hx]))]

lemma corroborationCount_update (db : CommunityDB) (oid : ℕ) (b : ℚ)
    (o : Observation) :
    corroborationCount (updateReliability db oid b) (setReliability oid b o) oid
      = corroborationCount db o oid := by
  unfold corroborationCount updateReliability
  rw [List.countP_map]
  simp only [setReliability_location_lat, setReliability_location_lon,
    setReliability_observation_type]
  apply countP_congr_mem
  intro p hp
  simp only [Function.comp, setReliability_location_lat, setReliability_location_lon,
    setReliability_observation_type, setReliability_id, setReliability_validated]

lemma reliabilityRaw_update (db : CommunityDB) (oid : ℕ) (b : ℚ) :
    reliabilityRaw (updateReliability db oid b) oid = reliabilityRaw db oid := by
  unfold reliabilityRaw
  rw [show (updateReliability db oid b).observations
      = db.observations.map (setReliability oid b) from rfl]
  rw [find?_map_setReliability]
  cases hfo : db.observations.find? (fun p => p.id == oid) with
  | none => rfl
  | some o =>
    simp only [Option.map_some']
    rw [show (updateReliability db oid b).observers = db.observers from rfl]
    rw [setReliability_observer_id]
    cases db.observers.find? (fun k => k.observer_id == o.observer_id) with
    | none => rfl
    | some c =>
      simp only [setReliability_confidence_level, setReliability_severity,
        setReliability_validated, corroborationCount_update]

/-- Claim C9: calling calculate_observation_reliability twice in a row
on the same store with no intervening writes returns the same value both
times: the first call's own persistence of the reliability score does
not change the second call's result, because the computation never reads
the reliability_score column. -/
theorem reliability_idempotent (db : CommunityDB) (oid : ℕ) :
    (calculate_observation_reliability
      (calculate_observation_reliability db oid).2 oid).1
      = (calculate_observation_reliability db oid).1 := by
  cases hr : reliabilityRaw db oid with
  | none => simp [calculate_observation_reliability, hr]
  | some b =>
    have h2 : reliabilityRaw (updateReliability db oid b) oid = some b := by
      rw [reliabilityRaw_update, hr]
    simp [calculate_observation_reliability, hr, h2]

/-- Claim C4 (amended): the call rounds only its return value.  It
persists the unrounded base score on the observation and returns that
score rounded to 3 decimals, so the stored reliability_score is the
pre-rounding value of what the call returned. -/
theorem reliability_persists_unrounded (db : CommunityDB) (oid : ℕ) (b : ℚ)
    (o : Observation)
    (hb : reliabilityRaw db oid = some b)
    (ho : db.observations.find? (fun p => p.id == oid) = some o) :
    (calculate_observation_reliability db oid).1 = pyRound b 3
    ∧ (calculate_observation_reliability db oid).2.observations.find?
        (fun p => p.id == oid) = some { o with reliability_score := b } := by
  have hid : (o.id == oid) = true :=
    List.find?_some (p := fun q : Observation => q.id == oid) ho
  constructor
  · simp [calculate_observation_reliability, hb]
  · have h2 : (calculate_observation_reliability db oid).2
        = updateReliability db oid b := by
      simp [calculate_observation_reliability, hb]
    rw [h2]
    rw [show (updateReliability db oid b).observations
        = db.observations.map (setReliability oid b) from rfl]
    rw [find?_map_setReliability, ho]
    simp only [Option.map_some']
    unfold setReliability
    rw [if_pos hid]

lemma corroborationCount_sample : corroborationCount sampleDB sampleObservation 1 = 0 := by
  unfold corroborationCount
  rw [show sampleDB.observations = [sampleObservation] from rfl]
  rw [List.countP_cons, List.countP_nil]
  simp [sampleObservation]

lemma reliabilityRaw_sample :
    reliabilityRaw sampleDB 1 = some (8439/20000) := by
  have h1 : sampleDB.observations.find? (fun p => p.id == 1)
      = some sampleObservation := rfl
  have h2 : sampleDB.observers.find?
      (fun k => k.observer_id == sampleObservation.observer_id)
      = some sampleObserver := rfl
  simp only [reliabilityRaw, h1, h2]
  rw [corroborationCount_sample]
  simp only [reliabilityScoreFormula]
  rw [show sampleObserver.accuracy_score = 1/2 from rfl,
    show sampleObservation.confidence_level = 777/1000 from rfl,
    show sampleObservation.severity = "MODERATE" from rfl,
    show sampleObservation.validated = false from rfl,
    show severityWeight "MODERATE" = 5/10 from rfl]
  norm_num

lemma pyRound_sample : pyRound (8439/20000) 3 = 211/500 := by
  unfold pyRound roundHalfEven
  have hfl : ⌊(8439:ℚ)/20000 * 10^3⌋ = 421 := by
    rw [Int.floor_eq_iff]
    norm_num
  rw [hfl]
  norm_num

/-- Counterexample to C4 as stated: on a store with observer accuracy
0.5 and observation confidence 0.777, the call returns 0.422 (rounded)
but stores 0.42195 (unrounded), so the persisted reliability_score
differs from the returned value. -/
theorem reliability_rounding_counterexample :
    (calculate_observation_reliability sampleDB 1).1 = 211/500
    ∧ (calculate_observation_reliability sampleDB 1).2.observations.map
        (fun p => p.reliability_score) = [8439/20000]
    ∧ (8439/20000 : ℚ) ≠ 211/500 := by
  have hr := reliabilityRaw_sample
  refine ⟨?_, ?_, by norm_num⟩
  · simp [calculate_observation_reliability, hr, pyRound_sample]
  · have h2 : (calculate_observation_reliability sampleDB 1).2
        = updateReliability sampleDB 1 (8439/20000) := by
      simp [calculate_observation_reliability, hr]
    rw [h2]
    rw [show (updateReliability sampleDB 1 (8439/20000)).observations
        = [{ sampleObservation with reliability_score := 8439/20000 }] from rfl]
    simp [sampleObservation]

/-- Witness for the amended C4 on the same concrete store. -/
theorem reliability_persists_unrounded_witness :
    (calculate_observation_reliability sampleDB 1).1 = pyRound (8439/20000) 3
    ∧ (calculate_observation_reliability sampleDB 1).2.observations.find?
        (fun p => p.id == 1)
      = some { sampleObservation with reliability_score := 8439/20000 } :=
  reliability_persists_unrounded sampleDB 1 (8439/20000) sampleObservation
    reliabilityRaw_sample rfl

/-- The all-zero initial `scores` dict of the aggregation loop. -/
def zeroCategoryScores : CategoryScores := ⟨0, 0, 0, 0, 0, 0⟩

lemma accumulateScores_nil : accumulateScores [] = some zeroCategoryScores := rfl

/-- Claim C5: for every target location, the aggregator's
total_indigenous_score equals min(wave + wind + tidal + ecosystem, 1.0)
(rounded to 3 decimals) where the sub-scores are individually capped at
0.4, 0.3, 0.25 and 0.2, so the total is always ≤ 1.0; and when no
validated observation matches the ±0.45-degree / hours_back window, the
result has all sub-scores 0, total 0, confidence 0 and count 0 rather
than an error. -/
theorem indigenous_total_capped (db : CommunityDB) (lat lon : ℚ) (hb now : ℤ) :
    (calculate_indigenous_score_from_observations db lat lon hb now).total_indigenous_score ≤ 1
    ∧ (matchedObservations db lat lon hb now = [] →
        calculate_indigenous_score_from_observations db lat lon hb now
          = zeroIndigenousResult)
    ∧ (∀ s, accumulateScores (matchedObservations db lat lon hb now) = some s →
        (calculate_indigenous_score_from_observations db lat lon hb now).total_indigenous_score
          = pyRound (min (waveScore s + windScore s + tidalScore s + ecosystemScore s) 1) 3
        ∧ waveScore s ≤ 4/10 ∧ windScore s ≤ 3/10 ∧ tidalScore s ≤ 25/100
        ∧ ecosystemScore s ≤ 2/10) := by
  by_cases he : matchedObservations db lat lon hb now = []
  · have hie : (matchedObservations db lat lon hb now).isEmpty = true := by
      rw [he]
      rfl
    have hres : calculate_indigenous_score_from_observations db lat lon hb now
        = zeroIndigenousResult := by
      simp [calculate_indigenous_score_from_observations, hie]
    refine ⟨by rw [hres]; norm_num [zeroIndigenousResult], fun _ => hres, ?_⟩
    intro s hs
    rw [he, accumulateScores_nil] at hs
    have hinit : s = zeroCategoryScores := (Option.some_inj.mp hs).symm
    subst hinit
    have hw : waveScore zeroCategoryScores = 0 := by
      norm_num [waveScore, zeroCategoryScores, min_def]
    have hwi : windScore zeroCategoryScores = 0 := by
      norm_num [windScore, zeroCategoryScores, min_def]
    have ht : tidalScore zeroCategoryScores = 0 := by
      norm_num [tidalScore, zeroCategoryScores, min_def]
    have hec : ecosystemScore zeroCategoryScores = 0 := by
      norm_num [ecosystemScore, zeroCategoryScores, min_def]
    rw [hres, hw, hwi, ht, hec]
    have hz : min ((0:ℚ) + 0 + 0 + 0) 1 = 0 := by norm_num [min_def]
    rw [hz, pyRound_zero]
    norm_num [zeroIndigenousResult]
  · have hie : (matchedObservations db lat lon hb now).isEmpty = false := by
      cases hml : matchedObservations db lat lon hb now with
      | nil => exact absurd hml he
      | cons a t => rfl
    cases hacc : accumulateScores (matchedObservations db lat lon hb now) with
    | none =>
      have hres : calculate_indigenous_score_from_observations db lat lon hb now
          = zeroIndigenousResult := by
        simp [calculate_indigenous_score_from_observations, hie, hacc]
      refine ⟨by rw [hres]; norm_num [zeroIndigenousResult],
        fun hdf => absurd hdf he, ?_⟩
      intro s hs
      cases hs
    | some s0 =>
      have htot : (calculate_indigenous_score_from_observations db lat lon hb now).total_indigenous_score
          = pyRound (min (waveScore s0 + windScore s0 + tidalScore s0
            + ecosystemScore s0) 1) 3 := by
        simp [calculate_indigenous_score_from_observations, hie, hacc]
      refine ⟨by rw [htot]; exact pyRound_le_one 3 (min_le_right _ _),
        fun hdf => absurd hdf he, ?_⟩
      intro s hs
      have hss : s0 = s := Option.some_inj.mp hs
      subst hss
      exact ⟨htot, min_le_right _ _, min_le_right _ _, min_le_right _ _,
        min_le_right _ _⟩

/-- A validated observation near (9, 76) used to exercise the aggregator. -/
def aggObservation : Observation :=
  { id := 1, observer_id := "F1", observer_name := "Asha",
    location_lat := 9, location_lon := 76,
    observation_type := "anomalous_waves", description := "big waves",
    confidence_level := 7/10, timestamp := 99000, severity := "MODERATE",
    validated := true, validator_id := some "V1",
    validation_timestamp := some 99500, reliability_score := 8/10 }

def aggDB : CommunityDB :=
  { observers := [sampleObserver], observations := [aggObservation],
    next_observation_id := 2, validation_history := [], next_validation_id := 1 }

/-- The accumulator produced by `aggObservation`:
severityWeight "MODERATE" * 0.8 = 0.4 on the wave category. -/
def aggScores : CategoryScores := ⟨2/5, 0, 0, 0, 0, 0⟩

lemma matchedObservations_agg :
    matchedObservations aggDB 9 76 24 100000 = [aggObservation] := by
  unfold matchedObservations
  rw [show aggDB.observations = [aggObservation] from rfl]
  rw [List.filter_cons]
  norm_num [show aggObservation.location_lat = 9 from rfl,
    show aggObservation.location_lon = 76 from rfl,
    show aggObservation.validated = true from rfl,
    show aggObservation.timestamp = 99000 from rfl]

lemma accumulateScores_agg :
    accumulateScores [aggObservation] = some aggScores := by
  have h1 : addContribution zeroCategoryScores aggObservation = some aggScores := by
    unfold addContribution
    rw [show (aggObservation.observation_type == "anomalous_waves") = true from rfl]
    rw [if_pos rfl]
    unfold aggScores zeroCategoryScores
    rw [show aggObservation.severity = "MODERATE" from rfl,
      show severityWeight "MODERATE" = 5/10 from rfl,
      show aggObservation.reliability_score = 8/10 from rfl]
    norm_num
  unfold accumulateScores
  rw [List.foldl_cons, List.foldl_nil]
  exact h1

/-- Witness for C5 on a store with one matching validated observation. -/
theorem indigenous_total_capped_witness :
    (calculate_indigenous_score_from_observations aggDB 9 76 24 100000).total_indigenous_score
      = pyRound (min (waveScore aggScores + windScore aggScores
        + tidalScore aggScores + ecosystemScore aggScores) 1) 3
    ∧ waveScore aggScores ≤ 4/10 ∧ windScore aggScores ≤ 3/10
    ∧ tidalScore aggScores ≤ 25/100 ∧ ecosystemScore aggScores ≤ 2/10 :=
  (indigenous_total_capped aggDB 9 76 24 100000).2.2 aggScores
    (by rw [matchedObservations_agg, accumulateScores_agg])

end CoastGuardAI
